import Mathlib

/-!
Shallow embedding of the Open Library → Neo4j ETL pipeline
(`open_library_API.py` and `neo4j_connection.py`).

Strings are modelled over their character lists; the Python string
methods used by the code (`strip`, `title`, `lower`, `re.sub`) are
embedded as executable functions on `Char` lists, faithful for ASCII
text.  Tabular data (the pandas dataframe) is modelled as a list of
records; the column-wise operations of `clean_data` become successive
`List.map` passes, one per pandas statement.  The Neo4j driver is
modelled by an oracle supplying the outcome of each external call, and
the Cypher statements issued by `load_books` are reified as a
`GraphStmt` trace.
-/

namespace BookETL

/-! ### Python string primitives -/

/-- Python `str.strip()` (default: whitespace at both ends), on `Char` lists. -/
def stripChars (l : List Char) : List Char :=
  ((l.dropWhile Char.isWhitespace).reverse.dropWhile Char.isWhitespace).reverse

/-- Python `str.strip()` on strings. -/
def pyStrip (s : String) : String :=
  ⟨stripChars s.data⟩

/-- Python `str.lower()` (ASCII case mapping). -/
def pyLower (s : String) : String :=
  ⟨s.data.map Char.toLower⟩

/-- Python `str.title()`: a letter is uppercased when the previous character
is not a letter, lowercased otherwise.  The boolean tracks whether the
previous character was a letter. -/
def pyTitleAux : Bool → List Char → List Char
  | _, [] => []
  | prev, c :: cs =>
    if c.isAlpha then
      (if prev then c.toLower else c.toUpper) :: pyTitleAux true cs
    else
      c :: pyTitleAux false cs

/-- Python `str.title()` on strings. -/
def pyTitle (s : String) : String :=
  ⟨pyTitleAux false s.data⟩

/-- `re.sub(r'\s+', ' ', s)`: collapse every whitespace run to a single
space.  The boolean tracks whether the previous character was whitespace. -/
def wsReplaceAux : Bool → List Char → List Char
  | _, [] => []
  | inRun, c :: cs =>
    if c.isWhitespace then
      if inRun then wsReplaceAux true cs else ' ' :: wsReplaceAux true cs
    else
      c :: wsReplaceAux false cs

/-- `re.sub(r'\s+', ' ', s)` on strings. -/
def wsReplace (s : String) : String :=
  ⟨wsReplaceAux false s.data⟩

/-! ### Data model -/

/-- An entry of a work's `authors` array: a JSON object whose `name` field
may be absent. -/
structure AuthorEntry where
  name : Option String
deriving DecidableEq, Repr

/-- One entry of the API response's `works` array; every field the code
reads may be absent. -/
structure Work where
  title : Option String
  authors : Option (List AuthorEntry)
  first_publish_year : Option Int
  edition_count : Option Int
  key : Option String
deriving DecidableEq, Repr

/-- The parsed JSON body returned by the subject endpoint. -/
structure ApiResponse where
  name : Option String
  works : Option (List Work)
deriving DecidableEq, Repr

/-- Flat book record produced by `extract_book_data` (one dataframe row).
`publish_year` is the numeric-or-missing year column. -/
structure FlatRecord where
  title : String
  authors : String
  publish_year : Option Int
  subject : String
  edition_count : Int
  key : String
deriving DecidableEq, Repr

/-- Normalized book record produced by `clean_data`: the flat columns after
cleaning plus the derived columns. -/
structure CleanedRow where
  title : String
  authors : String
  publish_year : Option Int
  subject : String
  edition_count : Int
  key : String
  id : String
  entity_type : String
  date_ingested : String
  confidence_score : ℚ
deriving DecidableEq, Repr

/-! ### Extractor (`extract_book_data`) -/

/-- Body of the `for work in api_response['works']` loop: one flat record
per work, with sentinel substitutions for absent fields. -/
def extract_work (subject_name : String) (work : Work) : FlatRecord :=
  let authors : List String :=
    match work.authors with
    | some l => l.map fun a => a.name.getD "Unknown"
    | none => []
  { title := work.title.getD "Unknown Title"
    authors := if authors.isEmpty then "Unknown" else String.intercalate ", " authors
    publish_year := work.first_publish_year
    subject := subject_name
    edition_count := work.edition_count.getD 0
    key := work.key.getD "" }

/-- `extract_book_data`: empty output when the response is missing or has
no `works` field, otherwise one record per work. -/
def extract_book_data (api_response : Option ApiResponse) : List FlatRecord :=
  match api_response with
  | none => []
  | some resp =>
    match resp.works with
    | none => []
    | some works => works.map (extract_work (resp.name.getD "Unknown Subject"))

/-! ### Normalizer (`clean_data`) -/

/-- `pd.to_numeric(col, errors='coerce')` on the year column.  The
extractor's year column is already numeric-or-missing, so coercion is the
identity: present integers stay, missing stays missing. -/
def to_numeric (y : Option Int) : Option Int := y

/-- `cleaned_df['title'] = cleaned_df['title'].str.strip().str.title()` -/
def clean_title_col (df : List FlatRecord) : List FlatRecord :=
  df.map fun r => { r with title := pyTitle (pyStrip r.title) }

/-- `cleaned_df['publish_year'] = pd.to_numeric(..., errors='coerce')` -/
def clean_year_col (df : List FlatRecord) : List FlatRecord :=
  df.map fun r => { r with publish_year := to_numeric r.publish_year }

/-- `cleaned_df['authors'] = ....str.replace(r'\s+', ' ', regex=True).str.strip()` -/
def clean_author_col (df : List FlatRecord) : List FlatRecord :=
  df.map fun r => { r with authors := pyStrip (wsReplace r.authors) }

/-- Whether the coerced `publish_year` column has dtype float64: pandas
(`pd.to_numeric(..., errors='coerce')`) yields an int64 column when every
value is a present integer, and promotes the whole column to float64 as
soon as any value is missing (NaN). -/
def yearColumnIsFloat (df : List FlatRecord) : Bool :=
  df.any fun r => r.publish_year.isNone

/-- The year cell rendered by the f-string at source line 68, which
depends on the column dtype: an int64 cell prints as its bare digits
(`1925`), a float64 cell prints as a float (`1925.0`) and a missing
float64 cell as `nan`. -/
def yearToken (floatDtype : Bool) : Option Int → String
  | none => "nan"
  | some y => if floatDtype then toString y ++ ".0" else toString y

/-- `re.sub(r'[^a-zA-Z0-9]', '', title.lower())[:20]` -/
def slug (title : String) : String :=
  ⟨((pyLower title).data.filter Char.isAlphanum).take 20⟩

/-- `f"book_{re.sub(r'[^a-zA-Z0-9]', '', x['title'].lower())[:20]}_{x['publish_year']}"`,
with the year cell rendered per the table's year-column dtype. -/
def make_id (floatDtype : Bool) (title : String) (publish_year : Option Int) : String :=
  "book_" ++ slug title ++ "_" ++ yearToken floatDtype publish_year

/-- The per-row derived columns of `clean_data` (id, entity_type,
date_ingested, confidence_score), computed from the already-cleaned
columns.  `today` is the value of `datetime.now().strftime('%Y-%m-%d')`;
the year-column dtype is a property of the whole (coerced) table. -/
def add_derived_cols (today : String) (df : List FlatRecord) : List CleanedRow :=
  let floatDtype := yearColumnIsFloat df
  df.map fun r =>
    { title := r.title
      authors := r.authors
      publish_year := r.publish_year
      subject := r.subject
      edition_count := r.edition_count
      key := r.key
      id := make_id floatDtype r.title r.publish_year
      entity_type := "book"
      date_ingested := today
      confidence_score :=
        if r.publish_year.isSome ∧ r.authors ≠ "Unknown" then (1.0 : ℚ) else (0.7 : ℚ) }

/-- `clean_data`: the column passes in source order (title, year, authors,
then the derived columns). -/
def clean_data (today : String) (df : List FlatRecord) : List CleanedRow :=
  add_derived_cols today (clean_author_col (clean_year_col (clean_title_col df)))

/-- The fused single-row form of `clean_data`: what one input row becomes
inside a table whose year-column dtype is `floatDtype`. -/
def clean_row (today : String) (floatDtype : Bool) (r : FlatRecord) : CleanedRow :=
  let title := pyTitle (pyStrip r.title)
  let year := to_numeric r.publish_year
  let authors := pyStrip (wsReplace r.authors)
  { title := title
    authors := authors
    publish_year := year
    subject := r.subject
    edition_count := r.edition_count
    key := r.key
    id := make_id floatDtype title year
    entity_type := "book"
    date_ingested := today
    confidence_score :=
      if year.isSome ∧ authors ≠ "Unknown" then (1.0 : ℚ) else (0.7 : ℚ) }

/-- `clean_data` as seen by its caller: the function receives `df`, works
on `cleaned_df = df.copy()` (source line 55), and returns the cleaned
copy; the caller's dataframe is handed back unchanged as the first
component. -/
def clean_data_with_input (df : List FlatRecord) (today : String) :
    List FlatRecord × List CleanedRow :=
  let cleaned_df := df
  (df, clean_data today cleaned_df)

/-! ### Fetcher (`fetch_books_by_subject`) -/

/-- What `requests.get` hands back when it does not raise: a status code
and the parsed JSON body (`response.json()`). -/
structure HttpResponse where
  status_code : Nat
  body : ApiResponse
deriving DecidableEq, Repr

/-- The URL built by the fetcher. -/
def mkUrl (subject : String) (limit : Nat) : String :=
  "http://openlibrary.org/subjects/" ++ subject ++ ".json?limit=" ++ toString limit

/-- `fetch_books_by_subject(subject, limit=20)`.  `get` models
`requests.get`: `.error` is a raised transport exception.  The source has
no `try`/`except`, so a transport error propagates; a non-200 status
returns `None` (here `none`); a 200 status returns the parsed body. -/
def fetch_books_by_subject (get : String → Except String HttpResponse)
    (subject : String) (limit : Nat := 20) : Except String (Option ApiResponse) := do
  let response ← get (mkUrl subject limit)
  if response.status_code = 200 then
    pure (some response.body)
  else
    pure none

/-! ### Graph loader (`neo4j_connection.py`) -/

/-- The `config` module constants imported at the top of the file. -/
structure Config where
  NEO4J_URI : String
  NEO4J_USER : String
  NEO4J_PASSWORD : String
deriving DecidableEq, Repr

/-- The connector's instance attributes set by `__init__`. -/
structure Neo4jConnector where
  uri : String
  user : String
  password : String
deriving DecidableEq, Repr

/-- `Neo4jConnector.__init__(self, uri, user, password)`.  Note: the
source assigns the module-level config constants `NEO4J_URI`,
`NEO4J_USER`, `NEO4J_PASSWORD` to the instance attributes, not the
constructor arguments `uri`, `user`, `password` (which are unused). -/
def mkNeo4jConnector (cfg : Config) (uri user password : String) : Neo4jConnector :=
  let _ := (uri, user, password)
  { uri := cfg.NEO4J_URI
    user := cfg.NEO4J_USER
    password := cfg.NEO4J_PASSWORD }

/-- A record returned by `session.run`, as a field-name/value map. -/
def QRecord := List (String × String)
deriving instance DecidableEq, Repr for QRecord

/-- `record["field"]`: raises `KeyError` when the field is absent. -/
def getField (r : QRecord) (k : String) : Except String String :=
  match r.lookup k with
  | some v => .ok v
  | none => .error ("KeyError: " ++ k)

/-- Outcomes of the external driver calls an operation makes.  `.error`
models a raised exception.  `driver` is `GraphDatabase.driver(uri,
auth=(user, password))`; `session` is `self.driver.session()`; `run` is
`session.run(query)` keyed by the query text; `tx` is the outcome of the
k-th `session.execute_write` call of a `load_books` invocation. -/
structure Oracle where
  driver : String → String → String → Except String Unit
  session : Except String Unit
  run : String → Except String (List QRecord)
  tx : Nat → Except String Unit

/-- Body of `connect` (the `try` block): build the driver from the
instance attributes, return `True`. -/
def connect_body (c : Neo4jConnector) (o : Oracle) : Except String Bool := do
  let _ ← o.driver c.uri c.user c.password
  pure true

/-- `connect()`: the body with its exception caught and turned into
`False`. -/
def connect (c : Neo4jConnector) (o : Oracle) : Except String Bool :=
  match connect_body c o with
  | .ok b => .ok b
  | .error _ => .ok false

/-- Body of `verify_connection` (the `try` block): open a session, run the
round-trip query, read `record["message"]` for each record, return
`True`. -/
def verify_connection_body (o : Oracle) : Except String Bool := do
  let _ ← o.session
  let result ← o.run "RETURN \x27Connection successful\x27 AS message"
  let _ ← result.mapM fun r => getField r "message"
  pure true

/-- `verify_connection()`: the body with its exception caught and turned
into `False`. -/
def verify_connection (o : Oracle) : Except String Bool :=
  match verify_connection_body o with
  | .ok b => .ok b
  | .error _ => .ok false

/-- Body of `clear_database` (the `try` block). -/
def clear_database_body (o : Oracle) : Except String Unit := do
  let _ ← o.session
  let _ ← o.run "MATCH (n) DETACH DELETE n"
  pure ()

/-- `clear_database()`: the body with its exception caught; the function
returns `None` either way. -/
def clear_database (o : Oracle) : Except String Unit :=
  match clear_database_body o with
  | .ok _ => .ok ()
  | .error _ => .ok ()

/-- Body of `create_constraints` (the `try` block): the four constraint
statements in source order. -/
def create_constraints_body (o : Oracle) : Except String Unit := do
  let _ ← o.session
  let _ ← o.run "CREATE CONSTRAINT book_id_constraint IF NOT EXISTS FOR (b:Book) REQUIRE b.id IS UNIQUE"
  let _ ← o.run "CREATE CONSTRAINT author_name_constraint IF NOT EXISTS FOR (a:Author) REQUIRE a.name IS UNIQUE"
  let _ ← o.run "CREATE CONSTRAINT subject_name_constraint IF NOT EXISTS FOR (s:Subject) REQUIRE s.name IS UNIQUE"
  let _ ← o.run "CREATE CONSTRAINT year_value_constraint IF NOT EXISTS FOR (y:Year) REQUIRE y.value IS UNIQUE"
  pure ()

/-- `create_constraints()`: the body with its exception caught; returns
`None` either way. -/
def create_constraints (o : Oracle) : Except String Unit :=
  match create_constraints_body o with
  | .ok _ => .ok ()
  | .error _ => .ok ()

/-! #### `load_books` -/

/-- Split around the first occurrence of `sep`: the part before it and
the part after it, or `none` when `sep` does not occur. -/
def findSplit (sep : List Char) : List Char → Option (List Char × List Char)
  | [] => none
  | c :: cs =>
    if sep.isPrefixOf (c :: cs) then some ([], (c :: cs).drop sep.length)
    else
      match findSplit sep cs with
      | some (pre, post) => some (c :: pre, post)
      | none => none

/-- Python `str.split(sep)` on character lists, with the input length as
fuel (each found separator consumes at least one character when `sep` is
non-empty). -/
def pySplitAux (sep : List Char) : Nat → List Char → List (List Char)
  | 0, l => [l]
  | fuel + 1, l =>
    match findSplit sep l with
    | none => [l]
    | some (pre, post) => pre :: pySplitAux sep fuel post

/-- Python `str.split(sep)`: leftmost, non-overlapping occurrences. -/
def pySplit (s sep : String) : List String :=
  (pySplitAux sep.data s.data.length s.data).map String.mk

/-- One Cypher write issued inside `create_book_nodes`, reified. -/
inductive GraphStmt where
  /-- `MERGE (b:Book {id}) SET title, edition_count, confidence_score, date_ingested` -/
  | mergeBook (id title : String) (edition_count : Int)
      (confidence_score : ℚ) (date_ingested : String)
  /-- `MERGE (s:Subject {name}) MERGE (b:Book {id}) MERGE (b)-[:HAS_SUBJECT]->(s)` -/
  | mergeSubject (subject : String) (book_id : String)
  /-- `MERGE (y:Year {value}) MERGE (b:Book {id}) MERGE (b)-[:PUBLISHED_IN]->(y)` -/
  | mergeYear (year : Int) (book_id : String)
  /-- `MERGE (a:Author {name}) MERGE (b:Book {id}) MERGE (b)-[:WRITTEN_BY]->(a)` -/
  | mergeAuthor (author_name : String) (book_id : String)
deriving DecidableEq, Repr

/-- The writes issued for one row of a batch, in source order: book merge,
subject merge, year merge only when the year is non-null, one author
merge per comma-separated author only when the authors string is not the
`Unknown` sentinel. -/
def row_statements (book : CleanedRow) : List GraphStmt :=
  [GraphStmt.mergeBook book.id book.title book.edition_count
                       book.confidence_score book.date_ingested,
   GraphStmt.mergeSubject book.subject book.id]
  ++ (match book.publish_year with
      | some year => [GraphStmt.mergeYear year book.id]
      | none => [])
  ++ (if book.authors ≠ "Unknown" then
        (pySplit book.authors ", ").map fun author => GraphStmt.mergeAuthor author book.id
      else [])

/-- `create_book_nodes(tx, batch)`: the writes of every row of the batch. -/
def create_book_nodes (batch : List CleanedRow) : List GraphStmt :=
  (batch.map row_statements).flatten

/-- `books_df.iloc[i:i+batch_size]` slicing driven by
`range(0, len(books_df), batch_size)`, with the list length as fuel
(each step drops at least one element when `size > 0`). -/
def toBatchesAux (size : Nat) : Nat → List CleanedRow → List (List CleanedRow)
  | 0, _ => []
  | _, [] => []
  | fuel + 1, l => l.take size :: toBatchesAux size fuel (l.drop size)

/-- The consecutive batches of `size` rows `load_books` iterates over. -/
def toBatches (size : Nat) (l : List CleanedRow) : List (List CleanedRow) :=
  toBatchesAux size l.length l

/-- Observable outcome of a `load_books` call: which batches had
`session.execute_write` called on them, and which of those transactions
committed. -/
structure LoadTrace where
  attempted : List (List CleanedRow)
  committed : List (List CleanedRow)
deriving DecidableEq, Repr

/-- The batch loop of `load_books`: each batch is one `execute_write`
call.  A raised transaction error leaves the loop (it is caught only at
the function boundary), so no later batch is attempted; earlier batches
stay committed. -/
def runBatches (tx : Nat → Except String Unit) :
    Nat → List (List CleanedRow) → LoadTrace × Except String Unit
  | _, [] => (⟨[], []⟩, .ok ())
  | k, b :: bs =>
    match tx k with
    | .error e => (⟨[b], []⟩, .error e)
    | .ok _ =>
      let (t, r) := runBatches tx (k + 1) bs
      (⟨b :: t.attempted, b :: t.committed⟩, r)

/-- Body of `load_books` (the `try` block): open the session, then run the
batch loop; the second component is the exception, if any, reaching the
`except` clause. -/
def load_books_body (o : Oracle) (books_df : List CleanedRow) :
    LoadTrace × Except String Unit :=
  match o.session with
  | .error e => (⟨[], []⟩, .error e)
  | .ok _ => runBatches o.tx 0 (toBatches 50 books_df)

/-- `load_books(books_df)`: every exception of the body is caught at the
function boundary and logged; the function returns `None` either way.
The trace is kept as the observable effect of the call. -/
def load_books (o : Oracle) (books_df : List CleanedRow) : Except String LoadTrace :=
  .ok (load_books_body o books_df).1

/-! #### `run_analytics_queries` -/

/-- The four read queries, in source order. -/
def q_node_counts : String :=
  "MATCH (n) RETURN labels(n)[0] AS label, count(n) AS count ORDER BY count DESC"

/-- Top-authors read query. -/
def q_top_authors : String :=
  "MATCH (a:Author)<-[:WRITTEN_BY]-(b:Book) RETURN a.name AS author, count(b) AS book_count ORDER BY book_count DESC LIMIT 5"

/-- Books-by-decade read query. -/
def q_books_by_decade : String :=
  "MATCH (b:Book)-[:PUBLISHED_IN]->(y:Year) WITH y.value/10 AS decade, count(b) AS book_count RETURN decade*10 AS decade_start, book_count ORDER BY decade_start"

/-- Top-subjects read query. -/
def q_top_subjects : String :=
  "MATCH (s:Subject)<-[:HAS_SUBJECT]-(b:Book) RETURN s.name AS subject, count(b) AS book_count ORDER BY book_count DESC LIMIT 5"

/-- Body of `run_analytics_queries` (the `try` block): the
`analytics_results` dict assembled key by key in source order, each value
read out of the query records field by field. -/
def run_analytics_queries_body (o : Oracle) :
    Except String (List (String × List (String × String))) := do
  let _ ← o.session
  let r1 ← o.run q_node_counts
  let node_counts ← r1.mapM fun r => do
    let l ← getField r "label"
    let c ← getField r "count"
    pure (l, c)
  let r2 ← o.run q_top_authors
  let top_authors ← r2.mapM fun r => do
    let a ← getField r "author"
    let c ← getField r "book_count"
    pure (a, c)
  let r3 ← o.run q_books_by_decade
  let books_by_decade ← r3.mapM fun r => do
    let d ← getField r "decade_start"
    let c ← getField r "book_count"
    pure (d, c)
  let r4 ← o.run q_top_subjects
  let top_subjects ← r4.mapM fun r => do
    let s ← getField r "subject"
    let c ← getField r "book_count"
    pure (s, c)
  pure [("node_counts", node_counts), ("top_authors", top_authors),
        ("books_by_decade", books_by_decade), ("top_subjects", top_subjects)]

/-- `run_analytics_queries()`: the body with its exception caught; a
failure yields the empty dict `{}`. -/
def run_analytics_queries (o : Oracle) :
    Except String (List (String × List (String × String))) :=
  match run_analytics_queries_body o with
  | .ok r => .ok r
  | .error _ => .ok []

/-! ### Concrete fixtures used by the scenario theorems -/

/-- The end-to-end scenario input work:
`{"title": " the great gatsby ", "authors":[{"name":"F. Scott Fitzgerald"}],
"first_publish_year": 1925, "edition_count": 3}`. -/
def gatsbyWork : Work :=
  { title := some " the great gatsby "
    authors := some [{ name := some "F. Scott Fitzgerald" }]
    first_publish_year := some 1925
    edition_count := some 3
    key := none }

/-- The scenario API response: the work above under subject `fiction`. -/
def gatsbyResponse : ApiResponse :=
  { name := some "fiction", works := some [gatsbyWork] }

/-- The normalized record the scenario expects (ingestion date fixed to
2026-02-03 for concreteness). -/
def gatsbyExpected : CleanedRow :=
  { title := "The Great Gatsby"
    authors := "F. Scott Fitzgerald"
    publish_year := some 1925
    subject := "fiction"
    edition_count := 3
    key := ""
    id := "book_thegreatgatsby_1925"
    entity_type := "book"
    date_ingested := "2026-02-03"
    confidence_score := (1.0 : ℚ) }

/-- A work with no `authors` key and no `first_publish_year` (second
end-to-end scenario). -/
def orphanWork : Work :=
  { title := some "Dust"
    authors := none
    first_publish_year := none
    edition_count := none
    key := none }

/-- A work whose authors array is non-empty but whose two entries both
lack a `name` field. -/
def twoNamelessWork : Work :=
  { title := some "Anon Tales"
    authors := some [{ name := none }, { name := none }]
    first_publish_year := some 2000
    edition_count := some 1
    key := some "/works/OL1W" }

/-- A work whose authors array is a single entry lacking a `name` field. -/
def oneNamelessWork : Work :=
  { title := some "Anon Tales"
    authors := some [{ name := none }]
    first_publish_year := some 2000
    edition_count := some 1
    key := some "/works/OL1W" }

/-- A normalized row used to build the 101-record batch scenario (its
table has every year present, hence an int64 year column). -/
def sampleRow : CleanedRow :=
  clean_row "2026-02-03" false (extract_work "fiction" gatsbyWork)

/-- 101 normalized records, for the batch-boundary scenario. -/
def rows101 : List CleanedRow := List.replicate 101 sampleRow

/-- An oracle on which every external call succeeds (queries return no
records, every transaction commits). -/
def oracleAllOk : Oracle :=
  { driver := fun _ _ _ => .ok ()
    session := .ok ()
    run := fun _ => .ok []
    tx := fun _ => .ok () }

/-- An oracle on which the second `execute_write` transaction (index 1)
raises and everything else succeeds. -/
def oracleFailSecondTx : Oracle :=
  { driver := fun _ _ _ => .ok ()
    session := .ok ()
    run := fun _ => .ok []
    tx := fun k => if k = 1 then .error "TransientError" else .ok () }

/-- An oracle on which every external call raises. -/
def oracleAllFail : Oracle :=
  { driver := fun _ _ _ => .error "ServiceUnavailable"
    session := .error "ServiceUnavailable"
    run := fun _ => .error "ServiceUnavailable"
    tx := fun _ => .error "ServiceUnavailable" }

/-- A transport-failure `requests.get`: models `requests.exceptions.ConnectionError`. -/
def getConnectionError : String → Except String HttpResponse :=
  fun _ => .error "ConnectionError"

/-- A `requests.get` that answers every URL with status 404 and an empty
body. -/
def get404 : String → Except String HttpResponse :=
  fun _ => .ok { status_code := 404, body := { name := none, works := none } }

/-- A `requests.get` that answers every URL with status 200 and the
scenario body. -/
def get200 : String → Except String HttpResponse :=
  fun _ => .ok { status_code := 200, body := gatsbyResponse }

/-- A flat record with no publish year: its presence in a table makes
pandas promote the year column to float64. -/
def dustFlat : FlatRecord :=
  { title := "Dust"
    authors := "Unknown"
    publish_year := none
    subject := "fiction"
    edition_count := 0
    key := "" }

/-- A flat record whose title is a noisy variant of the Gatsby title. -/
def noisyGatsbyFlat : FlatRecord :=
  { title := " The GREAT-gatsby!! "
    authors := "F. Scott Fitzgerald"
    publish_year := some 1925
    subject := "fiction"
    edition_count := 3
    key := "" }

/-- A flat record with the plain Gatsby title. -/
def plainGatsbyFlat : FlatRecord :=
  { title := "the great gatsby"
    authors := "Someone Else"
    publish_year := some 1925
    subject := "novels"
    edition_count := 1
    key := "/works/OL2W" }

/-- Number of `WRITTEN_BY` merges in a statement list. -/
def countWrittenBy (l : List GraphStmt) : Nat :=
  (l.filter fun s => match s with | GraphStmt.mergeAuthor _ _ => true | _ => false).length

/-- Number of `PUBLISHED_IN` merges in a statement list. -/
def countPublishedIn (l : List GraphStmt) : Nat :=
  (l.filter fun s => match s with | GraphStmt.mergeYear _ _ => true | _ => false).length

/-! ### Helper lemmas on characters and strings -/

/-- `Char.toNat` is a left inverse of `Char.ofNat` below the surrogate
range. -/
theorem charToNat_ofNat {n : Nat} (h : n < 55296) : (Char.ofNat n).toNat = n := by
  unfold Char.ofNat
  rw [dif_pos (Or.inl h)]
  rfl

/-- `Char.toLower` unfolded. -/
theorem charToLower_def (c : Char) :
    c.toLower = if c.toNat ≥ 65 ∧ c.toNat ≤ 90 then Char.ofNat (c.toNat + 32) else c := rfl

/-- `Char.toUpper` unfolded. -/
theorem charToUpper_def (c : Char) :
    c.toUpper = if c.toNat ≥ 97 ∧ c.toNat ≤ 122 then Char.ofNat (c.toNat - 32) else c := rfl

/-- Lowercasing is idempotent. -/
theorem toLower_toLower_eq (c : Char) : c.toLower.toLower = c.toLower := by
  by_cases h : c.toNat ≥ 65 ∧ c.toNat ≤ 90
  · have hl : c.toLower = Char.ofNat (c.toNat + 32) := by rw [charToLower_def, if_pos h]
    have h1 : (Char.ofNat (c.toNat + 32)).toNat = c.toNat + 32 := charToNat_ofNat (by omega)
    rw [hl, charToLower_def, h1, if_neg (by omega)]
  · have hl : c.toLower = c := by rw [charToLower_def, if_neg h]
    rw [hl]
    exact hl

/-- Lowercasing after uppercasing equals lowercasing. -/
theorem toLower_toUpper_eq (c : Char) : c.toUpper.toLower = c.toLower := by
  by_cases h : c.toNat ≥ 97 ∧ c.toNat ≤ 122
  · have hu : c.toUpper = Char.ofNat (c.toNat - 32) := by rw [charToUpper_def, if_pos h]
    have h1 : (Char.ofNat (c.toNat - 32)).toNat = c.toNat - 32 := charToNat_ofNat (by omega)
    have hL : c.toLower = c := by rw [charToLower_def, if_neg (by omega)]
    rw [hu, charToLower_def, h1, if_pos (by omega), hL]
    have e : c.toNat - 32 + 32 = c.toNat := by omega
    rw [e, Char.ofNat_toNat]
  · have hu : c.toUpper = c := by rw [charToUpper_def, if_neg h]
    rw [hu]

/-- Title-casing does not change the lowercased character sequence. -/
theorem map_toLower_pyTitleAux (b : Bool) (l : List Char) :
    (pyTitleAux b l).map Char.toLower = l.map Char.toLower := by
  induction l generalizing b with
  | nil => rfl
  | cons c cs ih =>
    by_cases h : c.isAlpha
    · cases b with
      | false => simp [pyTitleAux, h, toLower_toUpper_eq, ih]
      | true => simp [pyTitleAux, h, toLower_toLower_eq, ih]
    · simp [pyTitleAux, h, ih]

/-- A whitespace character lowercases to itself and is not alphanumeric. -/
theorem ws_not_alnum_toLower {c : Char} (h : c.isWhitespace = true) :
    (Char.isAlphanum c.toLower) = false := by
  simp only [Char.isWhitespace, Bool.or_eq_true, decide_eq_true_eq] at h
  rcases h with ((h | h) | h) | h <;> subst h <;> decide

/-- Dropping leading whitespace does not change the lowercased
alphanumeric subsequence. -/
theorem filter_alnum_map_toLower_dropWhile (l : List Char) :
    ((l.dropWhile Char.isWhitespace).map Char.toLower).filter Char.isAlphanum
      = (l.map Char.toLower).filter Char.isAlphanum := by
  induction l with
  | nil => rfl
  | cons c cs ih =>
    by_cases h : c.isWhitespace
    · rw [List.dropWhile_cons_of_pos h, ih, List.map_cons,
        List.filter_cons_of_neg (by rw [ws_not_alnum_toLower h]; exact Bool.false_ne_true)]
    · rw [List.dropWhile_cons_of_neg h]

/-- Stripping surrounding whitespace does not change the lowercased
alphanumeric subsequence. -/
theorem filter_alnum_map_toLower_stripChars (l : List Char) :
    ((stripChars l).map Char.toLower).filter Char.isAlphanum
      = (l.map Char.toLower).filter Char.isAlphanum := by
  unfold stripChars
  rw [List.map_reverse, List.filter_reverse, filter_alnum_map_toLower_dropWhile,
    List.map_reverse, List.filter_reverse, filter_alnum_map_toLower_dropWhile,
    List.reverse_reverse]

/-- The id slug of the cleaned (stripped, title-cased) title equals the
lowercased raw title with non-alphanumerics removed, truncated to 20
characters. -/
theorem slug_pyTitle_pyStrip (t : String) :
    slug (pyTitle (pyStrip t))
      = ⟨((t.data.map Char.toLower).filter Char.isAlphanum).take 20⟩ := by
  unfold slug pyLower pyTitle pyStrip
  apply congrArg String.mk
  apply congrArg (List.take 20)
  show ((pyTitleAux false (stripChars t.data)).map Char.toLower).filter Char.isAlphanum = _
  rw [map_toLower_pyTitleAux, filter_alnum_map_toLower_stripChars]

/-- The title, year-coercion and authors passes do not change which rows
have a missing year, so they do not change the year-column dtype. -/
theorem yearColumnIsFloat_cleaned (df : List FlatRecord) :
    yearColumnIsFloat (clean_author_col (clean_year_col (clean_title_col df)))
      = yearColumnIsFloat df := by
  unfold yearColumnIsFloat clean_author_col clean_year_col clean_title_col
  rw [List.any_map, List.any_map, List.any_map]
  rfl

/-- `clean_data` is the row-wise map of `clean_row` at the table's
year-column dtype: the successive column passes fuse into one pass. -/
theorem clean_data_eq_map (today : String) (df : List FlatRecord) :
    clean_data today df = df.map (clean_row today (yearColumnIsFloat df)) := by
  unfold clean_data add_derived_cols
  show (clean_author_col (clean_year_col (clean_title_col df))).map _
      = df.map (clean_row today (yearColumnIsFloat df))
  rw [yearColumnIsFloat_cleaned]
  unfold clean_author_col clean_year_col clean_title_col
  rw [List.map_map, List.map_map, List.map_map]
  rfl

/-- The batches of `load_books` concatenate back to the input (fuel
version). -/
theorem toBatchesAux_flatten (fuel : Nat) (l : List CleanedRow) (h : l.length ≤ fuel) :
    (toBatchesAux 50 fuel l).flatten = l := by
  induction fuel generalizing l with
  | zero =>
    have : l = [] := List.eq_nil_of_length_eq_zero (Nat.le_zero.mp h)
    subst this
    rfl
  | succ n ih =>
    cases l with
    | nil => rfl
    | cons c cs =>
      show (List.take 50 (c :: cs) :: toBatchesAux 50 n (List.drop 50 (c :: cs))).flatten
        = c :: cs
      rw [List.flatten_cons, ih _ (by simp at h ⊢; omega), List.take_append_drop]

/-- The batches of `load_books` concatenate back to the input. -/
theorem toBatches_flatten (l : List CleanedRow) : (toBatches 50 l).flatten = l :=
  toBatchesAux_flatten l.length l (Nat.le_refl _)

/-- `slug` unfolded: lowercase, keep alphanumerics, truncate to 20. -/
theorem slug_def (t : String) :
    slug t = ⟨((t.data.map Char.toLower).filter Char.isAlphanum).take 20⟩ := rfl

/-- The id column of a cleaned row, expressed against the raw title: the
strip/title-case passes do not affect the lowercased alphanumeric slug. -/
theorem clean_row_id (today : String) (floatDtype : Bool) (r : FlatRecord) :
    (clean_row today floatDtype r).id
      = "book_" ++ String.mk (((r.title.data.map Char.toLower).filter Char.isAlphanum).take 20)
          ++ "_" ++ yearToken floatDtype r.publish_year := by
  show make_id floatDtype (pyTitle (pyStrip r.title)) (to_numeric r.publish_year) = _
  unfold make_id to_numeric
  rw [slug_pyTitle_pyStrip]

/-! ### Claim theorems -/

/-- C1 counterexample: in a table that also contains a record with a
missing year, pandas renders the Gatsby row's year cell as the float
`1925.0`, so its id is `book_thegreatgatsby_1925.0` — not `book_` ++
slug ++ `_` ++ the publish year's digits as the claim derives it. -/
theorem C1_counterexample :
    (clean_data "2026-02-03" [noisyGatsbyFlat, dustFlat]).map CleanedRow.id
      = ["book_thegreatgatsby_1925.0", "book_dust_nan"]
  ∧ (clean_data "2026-02-03" [noisyGatsbyFlat, dustFlat]).map CleanedRow.id
      ≠ ["book_thegreatgatsby_1925", "book_dust_nan"] :=
  ⟨by decide, by decide⟩

/-- C1 amended: for every flat record the normalizer derives the id as
`book_`, then the record's title lowercased with non-alphanumerics
removed and truncated to 20 characters, an underscore, and the publish
year as the year column renders it — bare digits when every year in the
table is present, float digits (`1925.0`, missing as `nan`) when any
year in the table is absent; and the Gatsby work under subject `fiction`
(a table whose years are all present) normalizes to the expected record
with id `book_thegreatgatsby_1925`, title `The Great Gatsby`, authors
`F. Scott Fitzgerald`, publish year 1925, entity type `book` and
confidence score 1.0. -/
theorem C1_id_derivation_amended :
    (∀ (today : String) (df : List FlatRecord),
        (clean_data today df).map CleanedRow.id
          = df.map fun r =>
              "book_"
                ++ String.mk (((r.title.data.map Char.toLower).filter Char.isAlphanum).take 20)
                ++ "_" ++ yearToken (yearColumnIsFloat df) r.publish_year)
  ∧ clean_data "2026-02-03" (extract_book_data (some gatsbyResponse)) = [gatsbyExpected] := by
  constructor
  · intro today df
    rw [clean_data_eq_map, List.map_map]
    refine congrFun (congrArg List.map (funext fun r => ?_)) df
    exact clean_row_id today (yearColumnIsFloat df) r
  · rfl

/-- C3: every normalized row's confidence score is 0.7 or 1.0, and it is
1.0 exactly when the row's publish year is present and its authors string
is not the `Unknown` sentinel. -/
theorem C3_confidence_score (today : String) (df : List FlatRecord) (c : CleanedRow)
    (hc : c ∈ clean_data today df) :
    (c.confidence_score = (0.7 : ℚ) ∨ c.confidence_score = (1.0 : ℚ))
  ∧ (c.confidence_score = (1.0 : ℚ) ↔ c.publish_year.isSome ∧ c.authors ≠ "Unknown") := by
  rw [clean_data_eq_map] at hc
  obtain ⟨r, -, rfl⟩ := List.mem_map.mp hc
  have hconf : (clean_row today (yearColumnIsFloat df) r).confidence_score
      = if (to_numeric r.publish_year).isSome ∧ pyStrip (wsReplace r.authors) ≠ "Unknown"
        then (1.0 : ℚ) else (0.7 : ℚ) := rfl
  have hpy : (clean_row today (yearColumnIsFloat df) r).publish_year
      = to_numeric r.publish_year := rfl
  have hau : (clean_row today (yearColumnIsFloat df) r).authors
      = pyStrip (wsReplace r.authors) := rfl
  rw [hconf, hpy, hau]
  by_cases h : (to_numeric r.publish_year).isSome ∧ pyStrip (wsReplace r.authors) ≠ "Unknown"
  · rw [if_pos h]
    exact ⟨Or.inr rfl, by simp [h]⟩
  · rw [if_neg h]
    refine ⟨Or.inl rfl, ?_, ?_⟩
    · intro habs
      norm_num at habs
    · intro hp
      exact absurd hp h

/-- C3 witness: the Gatsby row is in the cleaned table, its confidence
score is in the allowed set, and the 1.0 characterization holds on it. -/
theorem C3_confidence_score_witness :
    clean_row "2026-02-03" false noisyGatsbyFlat ∈ clean_data "2026-02-03" [noisyGatsbyFlat]
  ∧ (((clean_row "2026-02-03" false noisyGatsbyFlat).confidence_score = (0.7 : ℚ)
        ∨ (clean_row "2026-02-03" false noisyGatsbyFlat).confidence_score = (1.0 : ℚ))
      ∧ ((clean_row "2026-02-03" false noisyGatsbyFlat).confidence_score = (1.0 : ℚ)
          ↔ (clean_row "2026-02-03" false noisyGatsbyFlat).publish_year.isSome
            ∧ (clean_row "2026-02-03" false noisyGatsbyFlat).authors ≠ "Unknown")) :=
  have hmem : clean_row "2026-02-03" false noisyGatsbyFlat ∈ clean_data "2026-02-03" [noisyGatsbyFlat] :=
    show clean_row "2026-02-03" false noisyGatsbyFlat ∈ [clean_row "2026-02-03" false noisyGatsbyFlat] from
      List.mem_singleton.mpr rfl
  ⟨hmem, C3_confidence_score "2026-02-03" [noisyGatsbyFlat] _ hmem⟩

/-- C8 counterexample: the same cleaned-title prefix and the same year
produce different ids in tables of different year-column dtype — the
Gatsby title with year 1925 gets id `book_thegreatgatsby_1925` in a
table whose years are all present, but `book_thegreatgatsby_1925.0` in a
table that also contains a record with a missing year: identical
(cleaned-title-prefix, year) inputs, different ids. -/
theorem C8_counterexample :
    (((pyTitle (pyStrip noisyGatsbyFlat.title)).data.map Char.toLower).filter
          Char.isAlphanum).take 20
      = (((pyTitle (pyStrip plainGatsbyFlat.title)).data.map Char.toLower).filter
          Char.isAlphanum).take 20
  ∧ noisyGatsbyFlat.publish_year = plainGatsbyFlat.publish_year
  ∧ (clean_data "2026-02-03" [noisyGatsbyFlat]).map CleanedRow.id
      = ["book_thegreatgatsby_1925"]
  ∧ (clean_data "2026-02-03" [plainGatsbyFlat, dustFlat]).map CleanedRow.id
      = ["book_thegreatgatsby_1925.0", "book_dust_nan"]
  ∧ ("book_thegreatgatsby_1925" : String) ≠ "book_thegreatgatsby_1925.0" :=
  ⟨by decide, by decide, by decide, by decide, by decide⟩

/-- C8 amended: within one normalized table — equivalently, at a fixed
year-column dtype — two rows whose cleaned titles agree on their first
20 characters after lowercasing and removing non-alphanumerics and whose
publish years are equal (or both missing) derive identical ids; the
derivation is deterministic given the cleaned-title prefix, the year and
the table's year-column dtype.  Across tables of different dtype the
same (prefix, year) pair renders differently (see the counterexample). -/
theorem C8_id_deterministic_amended (today : String) (floatDtype : Bool) (r1 r2 : FlatRecord)
    (ht : (((pyTitle (pyStrip r1.title)).data.map Char.toLower).filter Char.isAlphanum).take 20
        = (((pyTitle (pyStrip r2.title)).data.map Char.toLower).filter Char.isAlphanum).take 20)
    (hy : r1.publish_year = r2.publish_year) :
    (clean_row today floatDtype r1).id = (clean_row today floatDtype r2).id := by
  show make_id floatDtype (pyTitle (pyStrip r1.title)) (to_numeric r1.publish_year)
    = make_id floatDtype (pyTitle (pyStrip r2.title)) (to_numeric r2.publish_year)
  unfold make_id to_numeric
  rw [slug_def, slug_def, ht, hy]

/-- C8 amended witness: a noisy and a plain Gatsby title share the
cleaned 20-character prefix and the year, hence the same id within a
table of int64 year dtype. -/
theorem C8_id_deterministic_witness :
    ((((pyTitle (pyStrip noisyGatsbyFlat.title)).data.map Char.toLower).filter
          Char.isAlphanum).take 20
      = (((pyTitle (pyStrip plainGatsbyFlat.title)).data.map Char.toLower).filter
          Char.isAlphanum).take 20)
  ∧ noisyGatsbyFlat.publish_year = plainGatsbyFlat.publish_year
  ∧ (clean_row "2026-02-03" false noisyGatsbyFlat).id
      = (clean_row "2026-02-03" false plainGatsbyFlat).id :=
  ⟨by decide, by decide,
   C8_id_deterministic_amended "2026-02-03" false noisyGatsbyFlat plainGatsbyFlat
     (by decide) (by decide)⟩

/-- C9: the normalizer hands the caller's table back unchanged and
returns a new table that is the row-wise image of the input — same row
count, same row order, each output row derived from the input row at the
same position. -/
theorem C9_pure_copy_same_rows (today : String) (df : List FlatRecord) :
    clean_data_with_input df today = (df, df.map (clean_row today (yearColumnIsFloat df)))
  ∧ (clean_data today df).length = df.length := by
  refine ⟨?_, ?_⟩
  · show (df, clean_data today df) = (df, df.map (clean_row today (yearColumnIsFloat df)))
    rw [clean_data_eq_map]
  · rw [clean_data_eq_map, List.length_map]

/-- The authors column of an extracted record, unfolded. -/
theorem extract_work_authors (subj : String) (w : Work) :
    (extract_work subj w).authors
      = (let authors : List String :=
           match w.authors with
           | some l => l.map fun a => a.name.getD "Unknown"
           | none => []
         if authors.isEmpty then "Unknown" else String.intercalate ", " authors) := rfl

/-- The publish-year column of an extracted record, unfolded. -/
theorem extract_work_publish_year (subj : String) (w : Work) :
    (extract_work subj w).publish_year = w.first_publish_year := rfl

/-- The authors field of a cleaned row, unfolded. -/
theorem clean_row_authors (today : String) (floatDtype : Bool) (r : FlatRecord) :
    (clean_row today floatDtype r).authors = pyStrip (wsReplace r.authors) := rfl

/-- The publish-year field of a cleaned row, unfolded. -/
theorem clean_row_publish_year (today : String) (floatDtype : Bool) (r : FlatRecord) :
    (clean_row today floatDtype r).publish_year = to_numeric r.publish_year := rfl

/-- The confidence field of a cleaned row, unfolded. -/
theorem clean_row_confidence (today : String) (floatDtype : Bool) (r : FlatRecord) :
    (clean_row today floatDtype r).confidence_score
      = if (to_numeric r.publish_year).isSome ∧ pyStrip (wsReplace r.authors) ≠ "Unknown"
        then (1.0 : ℚ) else (0.7 : ℚ) := rfl

/-- C2 counterexample: loading 101 records on an oracle whose 2nd write
transaction fails — `execute_write` is called for only two batches; the
3rd batch is never attempted, contrary to the claim that it still is. -/
theorem C2_counterexample :
    ((load_books_body oracleFailSecondTx rows101).1.attempted.map List.length = [50, 50])
  ∧ (load_books_body oracleFailSecondTx rows101).1.attempted.length ≠ 3 := by
  exact ⟨by decide, by decide⟩

/-- C2 amended: records are partitioned into consecutive batches of 50
with one write transaction per batch; loading 101 records issues 3
transactions of sizes 50, 50, 1 when all commit; when the 2nd transaction
fails the 1st remains committed, but the raised error is caught for the
`load_books` call as a whole, so the 3rd transaction is NOT attempted. -/
theorem C2_batching_amended :
    (∀ books_df : List CleanedRow, (toBatches 50 books_df).flatten = books_df)
  ∧ ((toBatches 50 rows101).map List.length = [50, 50, 1])
  ∧ ((load_books_body oracleAllOk rows101).1.committed.map List.length = [50, 50, 1])
  ∧ ((load_books_body oracleFailSecondTx rows101).1.committed.map List.length = [50])
  ∧ ((load_books_body oracleFailSecondTx rows101).1.attempted.map List.length = [50, 50]) :=
  ⟨toBatches_flatten, by decide, by decide, by decide, by decide⟩

/-- C4 counterexample: on a transport failure (`requests.get` raising a
connection error) the fetcher does not return a failure signal: the
exception propagates to the caller. -/
theorem C4_counterexample :
    (fetch_books_by_subject getConnectionError "fiction" 20).isOk = false
  ∧ fetch_books_by_subject getConnectionError "fiction" 20 = .error "ConnectionError" :=
  ⟨rfl, rfl⟩

/-- C4 amended: the fetcher performs the single GET built from the
subject and limit; on a delivered response it returns the parsed body for
status 200 and `None` for any other status, without raising; on transport
failure the exception propagates to the caller (there is no handler). -/
theorem C4_fetch_amended (get : String → Except String HttpResponse)
    (subject : String) (limit : Nat) :
    (∀ resp, get (mkUrl subject limit) = .ok resp →
        fetch_books_by_subject get subject limit
          = .ok (if resp.status_code = 200 then some resp.body else none))
  ∧ (∀ e, get (mkUrl subject limit) = .error e →
        fetch_books_by_subject get subject limit = .error e) := by
  constructor
  · intro resp h
    unfold fetch_books_by_subject
    rw [h]
    show (if resp.status_code = 200 then (pure (some resp.body) : Except String (Option ApiResponse))
            else pure none)
        = .ok (if resp.status_code = 200 then some resp.body else none)
    split <;> rfl
  · intro e h
    unfold fetch_books_by_subject
    rw [h]
    rfl

/-- C4 witness: a 404 response yields `.ok none`; a raised connection
error yields a propagated `.error`. -/
theorem C4_fetch_amended_witness :
    get404 (mkUrl "fiction" 20) = .ok { status_code := 404, body := { name := none, works := none } }
  ∧ fetch_books_by_subject get404 "fiction" 20 = .ok none
  ∧ getConnectionError (mkUrl "fiction" 20) = .error "ConnectionError"
  ∧ fetch_books_by_subject getConnectionError "fiction" 20 = .error "ConnectionError" :=
  ⟨rfl,
   by have h := (C4_fetch_amended get404 "fiction" 20).1
        { status_code := 404, body := { name := none, works := none } } rfl
      simpa using h,
   rfl,
   (C4_fetch_amended getConnectionError "fiction" 20).2 "ConnectionError" rfl⟩

/-- C5: each of the six graph-loader operations catches every error of
its body at its own boundary: the operation always returns a value (never
an error), and a failing body yields the operation's failure indicator
(`False`, `None`, or the empty dict). -/
theorem C5_operations_catch_at_boundary (c : Neo4jConnector) (o : Oracle)
    (books_df : List CleanedRow) :
    (∃ b, connect c o = .ok b)
  ∧ (∃ b, verify_connection o = .ok b)
  ∧ (∃ u, clear_database o = .ok u)
  ∧ (∃ u, create_constraints o = .ok u)
  ∧ (∃ t, load_books o books_df = .ok t)
  ∧ (∃ r, run_analytics_queries o = .ok r)
  ∧ (∀ e, connect_body c o = .error e → connect c o = .ok false)
  ∧ (∀ e, verify_connection_body o = .error e → verify_connection o = .ok false)
  ∧ (∀ e, clear_database_body o = .error e → clear_database o = .ok ())
  ∧ (∀ e, create_constraints_body o = .error e → create_constraints o = .ok ())
  ∧ (∀ e, run_analytics_queries_body o = .error e → run_analytics_queries o = .ok []) := by
  refine ⟨?_, ?_, ?_, ?_, ⟨_, rfl⟩, ?_, ?_, ?_, ?_, ?_, ?_⟩
  · cases h : connect_body c o with
    | ok b => exact ⟨b, by unfold connect; rw [h]⟩
    | error e => exact ⟨false, by unfold connect; rw [h]⟩
  · cases h : verify_connection_body o with
    | ok b => exact ⟨b, by unfold verify_connection; rw [h]⟩
    | error e => exact ⟨false, by unfold verify_connection; rw [h]⟩
  · cases h : clear_database_body o with
    | ok u => exact ⟨(), by unfold clear_database; rw [h]⟩
    | error e => exact ⟨(), by unfold clear_database; rw [h]⟩
  · cases h : create_constraints_body o with
    | ok u => exact ⟨(), by unfold create_constraints; rw [h]⟩
    | error e => exact ⟨(), by unfold create_constraints; rw [h]⟩
  · cases h : run_analytics_queries_body o with
    | ok r => exact ⟨r, by unfold run_analytics_queries; rw [h]⟩
    | error e => exact ⟨[], by unfold run_analytics_queries; rw [h]⟩
  · intro e h
    unfold connect
    rw [h]
  · intro e h
    unfold verify_connection
    rw [h]
  · intro e h
    unfold clear_database
    rw [h]
  · intro e h
    unfold create_constraints
    rw [h]
  · intro e h
    unfold run_analytics_queries
    rw [h]

/-- C5 witness: on an oracle whose every external call raises, each
operation returns its failure indicator. -/
theorem C5_operations_witness :
    connect_body (mkNeo4jConnector ⟨"u", "n", "p"⟩ "u2" "n2" "p2") oracleAllFail
      = .error "ServiceUnavailable"
  ∧ connect (mkNeo4jConnector ⟨"u", "n", "p"⟩ "u2" "n2" "p2") oracleAllFail = .ok false
  ∧ verify_connection oracleAllFail = .ok false
  ∧ clear_database oracleAllFail = .ok ()
  ∧ create_constraints oracleAllFail = .ok ()
  ∧ run_analytics_queries oracleAllFail = .ok []
  ∧ (∃ t, load_books oracleAllFail [] = .ok t) :=
  have h := C5_operations_catch_at_boundary
    (mkNeo4jConnector ⟨"u", "n", "p"⟩ "u2" "n2" "p2") oracleAllFail []
  ⟨rfl,
   h.2.2.2.2.2.2.1 "ServiceUnavailable" rfl,
   h.2.2.2.2.2.2.2.1 "ServiceUnavailable" rfl,
   h.2.2.2.2.2.2.2.2.1 "ServiceUnavailable" rfl,
   h.2.2.2.2.2.2.2.2.2.1 "ServiceUnavailable" rfl,
   h.2.2.2.2.2.2.2.2.2.2 "ServiceUnavailable" rfl,
   h.2.2.2.2.1⟩

/-- C6: the constructor ignores the supplied uri/user/password and stores
the module-level config constants instead — evaluated at a failing input
where the supplied parameters differ from the config, and in general. -/
theorem C6_supplied_credentials_ignored :
    mkNeo4jConnector ⟨"bolt://config-host:7687", "config_user", "config_pw"⟩
        "bolt://supplied-host:7687" "supplied_user" "supplied_pw"
      = { uri := "bolt://config-host:7687", user := "config_user", password := "config_pw" }
  ∧ (mkNeo4jConnector ⟨"bolt://config-host:7687", "config_user", "config_pw"⟩
        "bolt://supplied-host:7687" "supplied_user" "supplied_pw").uri
      ≠ "bolt://supplied-host:7687"
  ∧ (∀ (cfg : Config) (uri user password : String),
        mkNeo4jConnector cfg uri user password
          = { uri := cfg.NEO4J_URI, user := cfg.NEO4J_USER, password := cfg.NEO4J_PASSWORD }) :=
  ⟨rfl, by decide, fun _ _ _ _ => rfl⟩

/-- C7: a work with no `authors` key and no `first_publish_year`
normalizes to the `Unknown` authors sentinel, a missing publish year and
confidence 0.7, and its load issues zero `WRITTEN_BY` and zero
`PUBLISHED_IN` merges while the Book merge and the `HAS_SUBJECT` merge
are still issued. -/
theorem C7_orphan_work (today : String) (floatDtype : Bool) (subj : String) (w : Work)
    (ha : w.authors = none) (hy : w.first_publish_year = none) :
    (clean_row today floatDtype (extract_work subj w)).authors = "Unknown"
  ∧ (clean_row today floatDtype (extract_work subj w)).publish_year = none
  ∧ (clean_row today floatDtype (extract_work subj w)).confidence_score = (0.7 : ℚ)
  ∧ countWrittenBy (create_book_nodes [clean_row today floatDtype (extract_work subj w)]) = 0
  ∧ countPublishedIn (create_book_nodes [clean_row today floatDtype (extract_work subj w)]) = 0
  ∧ GraphStmt.mergeBook (clean_row today floatDtype (extract_work subj w)).id
        (clean_row today floatDtype (extract_work subj w)).title
        (clean_row today floatDtype (extract_work subj w)).edition_count
        (clean_row today floatDtype (extract_work subj w)).confidence_score
        (clean_row today floatDtype (extract_work subj w)).date_ingested
      ∈ create_book_nodes [clean_row today floatDtype (extract_work subj w)]
  ∧ GraphStmt.mergeSubject (clean_row today floatDtype (extract_work subj w)).subject
        (clean_row today floatDtype (extract_work subj w)).id
      ∈ create_book_nodes [clean_row today floatDtype (extract_work subj w)] := by
  have he : (extract_work subj w).authors = "Unknown" := by
    rw [extract_work_authors, ha]
    rfl
  have hp : (extract_work subj w).publish_year = none := by
    rw [extract_work_publish_year, hy]
  have hA : (clean_row today floatDtype (extract_work subj w)).authors = "Unknown" := by
    rw [clean_row_authors, he]
    decide
  have hP : (clean_row today floatDtype (extract_work subj w)).publish_year = none := by
    rw [clean_row_publish_year, hp]
    rfl
  have hC : (clean_row today floatDtype (extract_work subj w)).confidence_score = (0.7 : ℚ) := by
    rw [clean_row_confidence, hp]
    rw [if_neg]
    rintro ⟨hs, -⟩
    exact Bool.false_ne_true hs
  have hstmts : row_statements (clean_row today floatDtype (extract_work subj w))
      = [GraphStmt.mergeBook (clean_row today floatDtype (extract_work subj w)).id
            (clean_row today floatDtype (extract_work subj w)).title
            (clean_row today floatDtype (extract_work subj w)).edition_count
            (clean_row today floatDtype (extract_work subj w)).confidence_score
            (clean_row today floatDtype (extract_work subj w)).date_ingested,
         GraphStmt.mergeSubject (clean_row today floatDtype (extract_work subj w)).subject
            (clean_row today floatDtype (extract_work subj w)).id] := by
    unfold row_statements
    rw [hA, hP]
    simp
  have hcb : create_book_nodes [clean_row today floatDtype (extract_work subj w)]
      = row_statements (clean_row today floatDtype (extract_work subj w)) := by
    simp [create_book_nodes]
  refine ⟨hA, hP, hC, ?_, ?_, ?_, ?_⟩
  · rw [hcb, hstmts]
    rfl
  · rw [hcb, hstmts]
    rfl
  · rw [hcb, hstmts]
    exact List.mem_cons_self _ _
  · rw [hcb, hstmts]
    exact List.mem_cons_of_mem _ (List.mem_cons_self _ _)

/-- C7 witness: the concrete orphan work satisfies both hypotheses and
the conclusion. -/
theorem C7_orphan_work_witness :
    orphanWork.authors = none
  ∧ orphanWork.first_publish_year = none
  ∧ ((clean_row "2026-02-03" true (extract_work "fiction" orphanWork)).authors = "Unknown"
      ∧ (clean_row "2026-02-03" true (extract_work "fiction" orphanWork)).publish_year = none
      ∧ (clean_row "2026-02-03" true (extract_work "fiction" orphanWork)).confidence_score = (0.7 : ℚ)
      ∧ countWrittenBy
          (create_book_nodes [clean_row "2026-02-03" true (extract_work "fiction" orphanWork)]) = 0
      ∧ countPublishedIn
          (create_book_nodes [clean_row "2026-02-03" true (extract_work "fiction" orphanWork)]) = 0
      ∧ GraphStmt.mergeBook (clean_row "2026-02-03" true (extract_work "fiction" orphanWork)).id
            (clean_row "2026-02-03" true (extract_work "fiction" orphanWork)).title
            (clean_row "2026-02-03" true (extract_work "fiction" orphanWork)).edition_count
            (clean_row "2026-02-03" true (extract_work "fiction" orphanWork)).confidence_score
            (clean_row "2026-02-03" true (extract_work "fiction" orphanWork)).date_ingested
          ∈ create_book_nodes [clean_row "2026-02-03" true (extract_work "fiction" orphanWork)]
      ∧ GraphStmt.mergeSubject (clean_row "2026-02-03" true (extract_work "fiction" orphanWork)).subject
            (clean_row "2026-02-03" true (extract_work "fiction" orphanWork)).id
          ∈ create_book_nodes [clean_row "2026-02-03" true (extract_work "fiction" orphanWork)]) :=
  ⟨rfl, rfl, C7_orphan_work "2026-02-03" true "fiction" orphanWork rfl rfl⟩

/-- C10 counterexample: a work listing two authors that both lack a
`name` field extracts to `Unknown, Unknown`, which is NOT the `Unknown`
sentinel: the record gets confidence 1.0 (its year being present) and its
load issues two `WRITTEN_BY` merges, contrary to the claim. -/
theorem C10_counterexample :
    (extract_work "fiction" twoNamelessWork).authors = "Unknown, Unknown"
  ∧ (extract_work "fiction" twoNamelessWork).authors ≠ "Unknown"
  ∧ (clean_row "2026-02-03" false (extract_work "fiction" twoNamelessWork)).confidence_score = (1.0 : ℚ)
  ∧ countWrittenBy (create_book_nodes
        [clean_row "2026-02-03" false (extract_work "fiction" twoNamelessWork)]) = 2 :=
  ⟨by decide, by decide, rfl, by decide⟩

/-- C10 amended: only a work whose authors list is exactly one nameless
entry (or whose sole author is literally named `Unknown`) extracts to
the `Unknown` sentinel and is indistinguishable from the no-authors case:
confidence 0.7 and zero `WRITTEN_BY` merges, though the work listed an
author.  With two or more nameless entries the joined string differs from
the sentinel and author edges are issued (see the counterexample). -/
theorem C10_single_unknown_amended (today : String) (floatDtype : Bool) (subj : String)
    (w : Work)
    (h : w.authors = some [{ name := none }] ∨ w.authors = some [{ name := some "Unknown" }]) :
    (extract_work subj w).authors = "Unknown"
  ∧ (clean_row today floatDtype (extract_work subj w)).authors = "Unknown"
  ∧ (clean_row today floatDtype (extract_work subj w)).confidence_score = (0.7 : ℚ)
  ∧ countWrittenBy (create_book_nodes [clean_row today floatDtype (extract_work subj w)]) = 0 := by
  have he : (extract_work subj w).authors = "Unknown" := by
    rcases h with h | h <;> rw [extract_work_authors, h] <;> decide
  have hA : (clean_row today floatDtype (extract_work subj w)).authors = "Unknown" := by
    rw [clean_row_authors, he]
    decide
  have hC : (clean_row today floatDtype (extract_work subj w)).confidence_score = (0.7 : ℚ) := by
    rw [clean_row_confidence, clean_row_authors] at *
    rw [if_neg]
    rintro ⟨-, hne⟩
    exact hne hA
  refine ⟨he, hA, hC, ?_⟩
  have hcb : create_book_nodes [clean_row today floatDtype (extract_work subj w)]
      = row_statements (clean_row today floatDtype (extract_work subj w)) := by
    simp [create_book_nodes]
  rw [hcb]
  unfold row_statements
  rw [hA, if_neg (fun hne => hne rfl)]
  cases hyv : (clean_row today floatDtype (extract_work subj w)).publish_year <;>
    simp [countWrittenBy, List.filter_append]

/-- C10 amended witness: the single-nameless-author work. -/
theorem C10_single_unknown_witness :
    oneNamelessWork.authors = some [{ name := none }]
  ∧ ((extract_work "fiction" oneNamelessWork).authors = "Unknown"
      ∧ (clean_row "2026-02-03" false (extract_work "fiction" oneNamelessWork)).authors = "Unknown"
      ∧ (clean_row "2026-02-03" false (extract_work "fiction" oneNamelessWork)).confidence_score
          = (0.7 : ℚ)
      ∧ countWrittenBy (create_book_nodes
            [clean_row "2026-02-03" false (extract_work "fiction" oneNamelessWork)]) = 0) :=
  ⟨rfl, C10_single_unknown_amended "2026-02-03" false "fiction" oneNamelessWork (Or.inl rfl)⟩

end BookETL
